import Mathlib

/-!
Shallow embedding of the q-sim quantum/classical network simulator core
(quantum_network/channel.py, quantum_network/node.py,
quantum_network/repeater.py, classical_network/packet.py,
core/exceptions.py, core/enums.py), together with theorems settling the
spec claims about it.

Conventions of the embedding:
* Python objects are identified by their fields; node objects are
  identified by natural-number identities (Python default `==` on nodes
  and channels is object identity).
* Python floats are modelled as rationals where only field values occur,
  and as real numbers where the code computes `**` with a fractional
  exponent (the loss probability).
* A Python `raise` / runtime error is an `Except.error` carrying a value
  of the `PyExc` type; the arity of an exception class constructor is
  modelled explicitly, because `transmit_qubit` calls `QubitLossError`
  with more arguments than its `__init__` accepts.
-/

namespace QSim

/-- Qubits are opaque payloads; qutip noise operators are modelled freely
as constructors, so distinct noise applications are distinguishable. -/
inductive Qubit where
  | basis : Nat → Qubit
  | depolarize : ℚ → Qubit → Qubit
  | phase_damp : ℚ → Qubit → Qubit
  | amplitude_damp : ℚ → Qubit → Qubit
deriving DecidableEq

/-- quantum_network/channel.py, class QuantumChannel: endpoints `node_1`,
`node_2` (node object identities), `length` (meters), `loss_per_km`,
`noise_model`, and the `name`/`description` fields from Sobject. -/
structure QuantumChannel where
  node_1 : Nat
  node_2 : Nat
  length : ℚ
  loss_per_km : ℚ
  noise_model : String
  name : String
  description : String
deriving DecidableEq

/-- Python runtime errors that the modelled code can raise.
`qubitLoss` is what a successful `QubitLossError(channel)` construction
would carry (core/exceptions.py stores only the channel); `typeError`,
`attributeError` and `indexError` are the interpreter's own errors. -/
inductive PyExc where
  | qubitLoss : QuantumChannel → PyExc
  | typeError : String → PyExc
  | attributeError : String → String → PyExc
  | unSupportedNetwork : PyExc
  | notConnected : PyExc
  | indexError : PyExc
deriving DecidableEq

/-- Whether an exception value is a QubitLossError. -/
def PyExc.isQubitLoss : PyExc → Bool
  | .qubitLoss _ => true
  | _ => false

/-- Whether an exception value is a NotConnectedError. -/
def PyExc.isNotConnected : PyExc → Bool
  | .notConnected => true
  | _ => false

/-- core/exceptions.py line 46: `def __init__(self, channel)` — the
`QubitLossError` initializer accepts exactly one argument besides self. -/
def qubitLossErrorParamCount : Nat := 1

/-- quantum_network/channel.py line 44: `raise QubitLossError(self, qubit)`
passes two positional arguments (the channel and the qubit). -/
def qubitLossErrorCallArgCount : Nat := 2

/-- The message of the TypeError Python raises for the mismatched call. -/
def qubitLossArityMsg : String :=
  "QubitLossError.__init__ takes 2 positional arguments but 3 were given"

/-- Models the expression `QubitLossError(self, qubit)` in
`transmit_qubit`: Python checks the positional-argument count against the
initializer's parameters before running it; on mismatch the call itself
raises TypeError instead of constructing the exception instance. -/
def mkQubitLossErrorCall (c : QuantumChannel) (_qubit : Qubit) : PyExc :=
  if qubitLossErrorCallArgCount = qubitLossErrorParamCount then
    PyExc.qubitLoss c
  else
    PyExc.typeError qubitLossArityMsg

/-- quantum_network/channel.py, QuantumChannel.apply_noise: dispatch on
`self.noise_model` with the fixed parameters of the source (0.05, 0.1,
0.1); any other model string returns the qubit unchanged. -/
def QuantumChannel.apply_noise (c : QuantumChannel) (qubit : Qubit) : Qubit :=
  if c.noise_model = "depolarizing" then
    Qubit.depolarize (5/100) qubit
  else if c.noise_model = "dephasing" then
    Qubit.phase_damp (1/10) qubit
  else if c.noise_model = "amplitude_damping" then
    Qubit.amplitude_damp (1/10) qubit
  else
    qubit

/-- The two quantum node classes defined in src: plain QuantumNode
(quantum_network/node.py) and QuantumRepeater (quantum_network/repeater.py). -/
inductive NodeKind where
  | quantumNode : NodeKind
  | quantumRepeater : NodeKind
deriving DecidableEq

/-- The class of each node identity, for attribute lookup on delivery. -/
structure QWorld where
  kind : Nat → NodeKind

/-- Models the call `to_node.receive_qubit(noisy_qubit)` at
quantum_network/channel.py line 53, following Python attribute lookup on
the classes in src: QuantumNode defines `receive_qbit` but no
`receive_qubit`, so the lookup raises AttributeError; QuantumRepeater
defines `receive_qubit(self, qubit, channel)`, so the one-argument call
raises TypeError for the missing `channel` argument. -/
def QWorld.callReceiveQubit (w : QWorld) (to_node : Nat) (_qubit : Qubit) :
    Except PyExc QWorld :=
  match w.kind to_node with
  | NodeKind.quantumNode =>
      Except.error (PyExc.attributeError "QuantumNode" "receive_qubit")
  | NodeKind.quantumRepeater =>
      Except.error (PyExc.typeError
        "receive_qubit missing 1 required positional argument: channel")

/-- quantum_network/channel.py line 52:
`to_node = self.node_2 if self.node_1 == from_node else self.node_1`. -/
def QuantumChannel.resolveToNode (c : QuantumChannel) (from_node : Nat) : Nat :=
  if c.node_1 = from_node then c.node_2 else c.node_1

/-- quantum_network/channel.py lines 40-42:
`loss_prob = 1 - (1 - self.loss_per_km) ** (self.length / 1000)`,
with the float power modelled as the real power. -/
noncomputable def QuantumChannel.lossProb (c : QuantumChannel) : ℝ :=
  1 - (1 - (c.loss_per_km : ℝ)) ^ ((c.length : ℝ) / 1000)

/-- quantum_network/channel.py, QuantumChannel.transmit_qubit, with the
uniform draw `random.random()` passed in as `u`: if `u < loss_prob` the
code executes `raise QubitLossError(self, qubit)` (see
`mkQubitLossErrorCall`); otherwise it applies the noise model and calls
`to_node.receive_qubit(noisy_qubit)` on the resolved endpoint. -/
noncomputable def QuantumChannel.transmit_qubit (c : QuantumChannel)
    (w : QWorld) (qubit : Qubit) (from_node : Nat) (u : ℝ) :
    Except PyExc QWorld :=
  if u < c.lossProb then
    Except.error (mkQubitLossErrorCall c qubit)
  else
    let noisy_qubit := c.apply_noise qubit
    let to_node := c.resolveToNode from_node
    w.callReceiveQubit to_node noisy_qubit

/-- Whether a transmit outcome is a raised QubitLossError. -/
def isQubitLossResult : Except PyExc QWorld → Bool
  | Except.error e => e.isQubitLoss
  | Except.ok _ => false

/-- Whether a transmit outcome is a raised NotConnectedError. -/
def isNotConnectedResult : Except PyExc QWorld → Bool
  | Except.error e => e.isNotConnected
  | Except.ok _ => false

/-- core/enums.py, class NetworkType. -/
inductive NetworkType where
  | QUANTUM_NETWORK : NetworkType
  | CLASSICAL_NETWORK : NetworkType
deriving DecidableEq

/-- The part of core/network.py's Network that QuantumNode.__init__
inspects: its `network_type`. -/
structure Network where
  network_type : NetworkType

/-- The attributes QuantumNode.__init__ (quantum_network/node.py) sets
after its network-type check: address, empty channel list, `qmemory =
None`, empty `qmemeory_buffer` (sic) queue, modelled as a FIFO list whose
`put` appends at the tail. -/
structure QuantumNodeFields where
  address : String
  quantum_channels : List QuantumChannel
  qmemory : Option Qubit
  qmemeory_buffer : List Qubit
deriving DecidableEq

/-- quantum_network/node.py, QuantumNode.__init__: after the base Node
constructor (core/base_classes.py is not under src/ and is modelled from
the spec as plain attribute assignment that itself raises nothing), the
code raises UnSupportedNetworkError when
`network.network_type != NetworkType.QUANTUM_NETWORK`, else initializes
the quantum fields. -/
def QuantumNode.init (network : Network) (address : String) :
    Except PyExc QuantumNodeFields :=
  if network.network_type ≠ NetworkType.QUANTUM_NETWORK then
    Except.error PyExc.unSupportedNetwork
  else
    Except.ok
      { address := address
        quantum_channels := []
        qmemory := none
        qmemeory_buffer := [] }

/-- quantum_network/node.py, QuantumNode.receive_qbit (note the source
spelling, without the u): `self.qmemeory_buffer.put(qbit)`. -/
def QuantumNode.receive_qbit (st : QuantumNodeFields) (qbit : Qubit) :
    QuantumNodeFields :=
  { st with qmemeory_buffer := st.qmemeory_buffer ++ [qbit] }

/-- quantum_network/repeater.py, fields set by QuantumRepeater.__init__
on top of the QuantumNode fields. -/
structure QuantumRepeaterFields where
  base : QuantumNodeFields
  quantum_channels_in : List QuantumChannel
  quantum_channels_out : List QuantumChannel
  repeater_protocol : String
  num_memories : Nat
  memory_fidelity : ℚ
deriving DecidableEq

/-- quantum_network/repeater.py, QuantumRepeater.__init__: runs the
QuantumNode constructor (propagating its UnSupportedNetworkError) and
then initializes the repeater-specific attributes. -/
def QuantumRepeater.init (network : Network) (address : String)
    (repeater_protocol : String) (num_memories : Nat)
    (memory_fidelity : ℚ) : Except PyExc QuantumRepeaterFields :=
  match QuantumNode.init network address with
  | Except.error e => Except.error e
  | Except.ok base =>
      Except.ok
        { base := base
          quantum_channels_in := []
          quantum_channels_out := []
          repeater_protocol := repeater_protocol
          num_memories := num_memories
          memory_fidelity := memory_fidelity }

/-- The repeater state that receive_qubit and simple_entanglement_swap
read and write: the inbound channel list, and `self.qmemory`, which for
a repeater is either None (its initial and cleared value) or a Python
list whose cells hold a qubit or None. -/
structure RepeaterState where
  quantum_channels_in : List QuantumChannel
  qmemory : Option (List (Option Qubit))
deriving DecidableEq

/-- Message of the TypeError raised by `self.qmemory[i] = qubit` when
`self.qmemory` is None. -/
def noneItemAssignMsg : String :=
  "NoneType object does not support item assignment"

/-- Models the Python statement `self.qmemory[i] = qubit`: TypeError when
qmemory is None, IndexError when the index is out of range, otherwise an
in-place update of cell `i`. -/
def RepeaterState.setMemSlot (st : RepeaterState) (i : Nat) (qubit : Qubit) :
    Except PyExc RepeaterState :=
  match st.qmemory with
  | none => Except.error (PyExc.typeError noneItemAssignMsg)
  | some mem =>
      if i < mem.length then
        Except.ok { st with qmemory := some (mem.set i (some qubit)) }
      else
        Except.error PyExc.indexError

/-- quantum_network/repeater.py, QuantumRepeater.receive_qubit: compares
`channel` (Python object identity, modelled by channel-value equality)
against `self.quantum_channels_in[0]` and `[1]` — each subscript raises
IndexError when the list is too short — storing into `self.qmemory[0]`
or `[1]` on a match; on no match it only prints a diagnostic. -/
def QuantumRepeater.receive_qubit (st : RepeaterState) (qubit : Qubit)
    (channel : QuantumChannel) : Except PyExc RepeaterState :=
  match st.quantum_channels_in.get? 0 with
  | none => Except.error PyExc.indexError
  | some c0 =>
      if channel = c0 then
        st.setMemSlot 0 qubit
      else
        match st.quantum_channels_in.get? 1 with
        | none => Except.error PyExc.indexError
        | some c1 =>
            if channel = c1 then
              st.setMemSlot 1 qubit
            else
              Except.ok st

/-- Environment of a swap: `get_qmemory()` of each node identity, i.e.
what `self.quantum_channels_in[i].node_2.get_qmemory()` returns. -/
structure SwapEnv where
  nodeMem : Nat → Option Qubit

/-- Observable outcome of one simple_entanglement_swap call: the pair of
values passed to perform_bell_measurement (None when the guard failed),
the `entanglement_swap_outcome(peer, result)` notifications as
(receiver, peer, result) triples in call order, and the repeater's
qmemory afterwards. -/
structure SwapOutput where
  measured : Option (Option Qubit × Option Qubit)
  notifications : List (Nat × Nat × Bool)
  qmemory : Option (List (Option Qubit))
deriving DecidableEq

/-- quantum_network/repeater.py, QuantumRepeater.simple_entanglement_swap.
Guard: `if self.qmemory and len(self.quantum_channels_in) >= 2 and
all(self.qmemory)` (qmemory truthy means: not None and non-empty; `all`
means every cell truthy, i.e. holds a qubit). Body: reads
`quantum_channels_in[0].node_2.get_qmemory()` and
`quantum_channels_in[1].node_2.get_qmemory()`, calls
perform_bell_measurement on them (a stub returning a random bit, passed
in here as `measure`), notifies `quantum_channels_in[0].node_2` with peer
`quantum_channels_in[1].node_2` and vice versa, both with the same
result, then `clear_qmemory()` sets qmemory to None. -/
def QuantumRepeater.simple_entanglement_swap (st : RepeaterState)
    (env : SwapEnv) (measure : Option Qubit → Option Qubit → Bool) :
    SwapOutput :=
  match st.quantum_channels_in, st.qmemory with
  | c0 :: c1 :: _, some mem =>
      if mem ≠ [] ∧ (mem.all fun slot => slot.isSome) then
        let q1 := env.nodeMem c0.node_2
        let q2 := env.nodeMem c1.node_2
        let result := measure q1 q2
        { measured := some (q1, q2)
          notifications :=
            [(c0.node_2, c1.node_2, result), (c1.node_2, c0.node_2, result)]
          qmemory := none }
      else
        { measured := none, notifications := [], qmemory := st.qmemory }
  | _, _ => { measured := none, notifications := [], qmemory := st.qmemory }

/-- classical_network/enum.py is not under src/; the packet type enum is
opaque to every claim and modelled as a tagged value. -/
structure PacketType where
  tag : String
deriving DecidableEq

/-- The value stored in a packet's `time` field: either a number, or —
what `datetime.now().timestamp` (without parentheses) evaluates to — the
bound `timestamp` method of the datetime captured at construction time
(`now` is that datetime's would-be timestamp); the bound method is a
function object, not a number, and `==`-unequal to any number. -/
inductive PyTime where
  | num : ℚ → PyTime
  | boundMethodTimestamp : ℚ → PyTime
deriving DecidableEq

/-- Whether a `time` field value is a number. -/
def PyTime.isNumeric : PyTime → Bool
  | .num _ => true
  | .boundMethodTimestamp _ => false

/-- classical_network/packet.py, class ClassicDataPacket; node references
are node identities, `data` is an opaque payload. -/
structure ClassicDataPacket where
  from_address : Nat
  to_address : Nat
  type : PacketType
  time : PyTime
  hops : List Nat
  protocol : String
  next_hop : Nat
  data : String
  destination_address : Option Nat
deriving DecidableEq

/-- classical_network/packet.py, ClassicDataPacket.__init__ (source
defaults: protocol="tcp", time=0, destination_address=None): when
`time == 0` the code stores `datetime.now().timestamp` — the attribute,
uncalled — then seeds `hops = [from_address]` and
`next_hop = to_address`. -/
def ClassicDataPacket.init (data : String) (from_address : Nat)
    (to_address : Nat) (ptype : PacketType) (protocol : String)
    (time : PyTime) (destination_address : Option Nat) (now : ℚ) :
    ClassicDataPacket :=
  let time := if time = PyTime.num 0 then PyTime.boundMethodTimestamp now
              else time
  { from_address := from_address
    to_address := to_address
    type := ptype
    time := time
    hops := [from_address]
    protocol := protocol
    next_hop := to_address
    data := data
    destination_address := destination_address }

/-- classical_network/packet.py, ClassicDataPacket.append_hop:
`self.hops.append(hop)`. -/
def ClassicDataPacket.append_hop (p : ClassicDataPacket) (hop : Nat) :
    ClassicDataPacket :=
  { p with hops := p.hops ++ [hop] }

/-- N traversals: one append_hop call per traversed node, in order. -/
def ClassicDataPacket.appendHopsAll (p : ClassicDataPacket)
    (l : List Nat) : ClassicDataPacket :=
  l.foldl ClassicDataPacket.append_hop p

/-! Concrete instances used by witnesses and counterexamples. -/

/-- A channel on which the loss draw always fires:
loss_per_km = 1.0, length = 1000 m. -/
def chanLossy : QuantumChannel :=
  { node_1 := 0, node_2 := 1, length := 1000, loss_per_km := 1
    noise_model := "default", name := "lossy", description := "" }

/-- A zero-length channel (loss probability 0). -/
def chanLen0 : QuantumChannel :=
  { node_1 := 0, node_2 := 1, length := 0, loss_per_km := 1/2
    noise_model := "default", name := "len0", description := "" }

/-- A world in which every node identity is a plain QuantumNode. -/
def worldEx : QWorld := { kind := fun _ => NodeKind.quantumNode }

/-- A sample qubit. -/
def qubitEx : Qubit := Qubit.basis 0

/-- First inbound channel of the example repeater (its far endpoint
node_2 is node 7). -/
def chanIn0 : QuantumChannel :=
  { node_1 := 5, node_2 := 7, length := 1000, loss_per_km := 0
    noise_model := "default", name := "in0", description := "" }

/-- Second inbound channel of the example repeater (node_2 is node 8). -/
def chanIn1 : QuantumChannel :=
  { node_1 := 6, node_2 := 8, length := 1000, loss_per_km := 0
    noise_model := "default", name := "in1", description := "" }

/-- Third inbound channel of the example repeater (node_2 is node 12). -/
def chanIn2 : QuantumChannel :=
  { node_1 := 9, node_2 := 12, length := 1000, loss_per_km := 0
    noise_model := "default", name := "in2", description := "" }

/-- Example repeater state for the swap: two inbound channels, both own
memory slots filled (with qubits basis 10 and basis 11). -/
def repSt : RepeaterState :=
  { quantum_channels_in := [chanIn0, chanIn1]
    qmemory := some [some (Qubit.basis 10), some (Qubit.basis 11)] }

/-- Example swap environment: node 7 holds basis 20, node 8 holds
basis 21 — distinct from the repeater's own slot contents. -/
def swapEnvEx : SwapEnv :=
  { nodeMem := fun n =>
      if n = 7 then some (Qubit.basis 20)
      else if n = 8 then some (Qubit.basis 21)
      else none }

/-- Example repeater state for receive_qubit: three inbound channels,
three empty memory cells. -/
def repSt3 : RepeaterState :=
  { quantum_channels_in := [chanIn0, chanIn1, chanIn2]
    qmemory := some [none, none, none] }

/-- Example repeater state with two inbound channels and two empty
memory cells. -/
def repSt2 : RepeaterState :=
  { quantum_channels_in := [chanIn0, chanIn1]
    qmemory := some [none, none] }

/-- A classical network value. -/
def netClassical : Network := { network_type := NetworkType.CLASSICAL_NETWORK }

/-- A quantum network value. -/
def netQuantum : Network := { network_type := NetworkType.QUANTUM_NETWORK }

/-- A sample packet type. -/
def ptypeEx : PacketType := { tag := "DATA" }

/-! Helper lemmas about the channel model. -/

theorem lossProb_length_zero (c : QuantumChannel) (h : c.length = 0) :
    c.lossProb = 0 := by
  unfold QuantumChannel.lossProb
  rw [h]
  push_cast
  rw [zero_div, Real.rpow_zero, sub_self]

theorem lossProb_loss_per_km_one (c : QuantumChannel)
    (h : c.loss_per_km = 1) (hl : 0 < c.length) : c.lossProb = 1 := by
  have hcast : (0 : ℝ) < (c.length : ℝ) := by exact_mod_cast hl
  have hexp : ((c.length : ℝ) / 1000) ≠ 0 := ne_of_gt (by positivity)
  unfold QuantumChannel.lossProb
  rw [h]
  push_cast
  rw [sub_self, Real.zero_rpow hexp, sub_zero]

theorem transmit_qubit_loss_branch (c : QuantumChannel) (w : QWorld)
    (qubit : Qubit) (from_node : Nat) (u : ℝ) (h : u < c.lossProb) :
    c.transmit_qubit w qubit from_node u =
      Except.error (mkQubitLossErrorCall c qubit) := by
  unfold QuantumChannel.transmit_qubit
  rw [if_pos h]

theorem transmit_qubit_success_branch (c : QuantumChannel) (w : QWorld)
    (qubit : Qubit) (from_node : Nat) (u : ℝ) (h : ¬ u < c.lossProb) :
    c.transmit_qubit w qubit from_node u =
      w.callReceiveQubit (c.resolveToNode from_node) (c.apply_noise qubit) := by
  unfold QuantumChannel.transmit_qubit
  rw [if_neg h]

theorem mkQubitLossErrorCall_eq (c : QuantumChannel) (qubit : Qubit) :
    mkQubitLossErrorCall c qubit = PyExc.typeError qubitLossArityMsg := rfl

theorem chanLossy_lossProb : chanLossy.lossProb = 1 := by
  apply lossProb_loss_per_km_one
  · rfl
  · norm_num [chanLossy]

theorem chanLen0_lossProb : chanLen0.lossProb = 0 :=
  lossProb_length_zero chanLen0 rfl

/-! Claim theorems. -/

/-- C1 (code_bug evaluation): on the loss path, transmit_qubit does not
raise a QubitLossError carrying the channel and the qubit; the call
`QubitLossError(self, qubit)` itself raises TypeError, because
`QubitLossError.__init__` accepts only a channel. Evaluated at a channel
with loss_per_km = 1.0, length = 1000 and draw u = 1/2 < loss_prob = 1. -/
theorem c1_loss_branch_raises_typeError :
    chanLossy.transmit_qubit worldEx qubitEx 0 (1/2) =
      Except.error (PyExc.typeError qubitLossArityMsg)
    ∧ isQubitLossResult (chanLossy.transmit_qubit worldEx qubitEx 0 (1/2))
        = false
    ∧ qubitLossErrorCallArgCount ≠ qubitLossErrorParamCount := by
  have h : (1/2 : ℝ) < chanLossy.lossProb := by
    rw [chanLossy_lossProb]; norm_num
  have heq := transmit_qubit_loss_branch chanLossy worldEx qubitEx 0 (1/2) h
  rw [mkQubitLossErrorCall_eq] at heq
  refine ⟨heq, ?_, by decide⟩
  rw [heq]
  rfl

/-- C2 counterexample: a channel with loss_per_km = 1.0 and length =
1000 > 0 does not raise QubitLossError on transmission (draw 1/2): the
loss branch fires but raises TypeError, so the claim "it always raises
QubitLossError" is false at this input. -/
theorem c2_counterexample :
    isQubitLossResult (chanLossy.transmit_qubit worldEx qubitEx 0 (1/2))
      = false := by
  have h : (1/2 : ℝ) < chanLossy.lossProb := by
    rw [chanLossy_lossProb]; norm_num
  rw [transmit_qubit_loss_branch chanLossy worldEx qubitEx 0 (1/2) h,
    mkQubitLossErrorCall_eq]
  rfl

/-- C2 (amended): transmit_qubit computes
`loss_prob = 1 - (1 - loss_per_km) ^ (length / 1000)`; for length = 0 the
loss branch never fires for any draw in [0,1), so no loss exception is
raised and the code proceeds to noise application and delivery; for
loss_per_km = 1.0 and length > 0 the loss branch always fires, raising an
exception — a TypeError rather than a QubitLossError, because of the
QubitLossError constructor-arity bug recorded at C1. -/
theorem c2_loss_probability_behavior (c : QuantumChannel) (w : QWorld)
    (qubit : Qubit) (from_node : Nat) (u : ℝ) :
    c.lossProb = 1 - (1 - (c.loss_per_km : ℝ)) ^ ((c.length : ℝ) / 1000)
    ∧ (c.length = 0 → 0 ≤ u →
        c.transmit_qubit w qubit from_node u =
          w.callReceiveQubit (c.resolveToNode from_node)
            (c.apply_noise qubit))
    ∧ (c.loss_per_km = 1 → 0 < c.length → u < 1 →
        c.transmit_qubit w qubit from_node u =
          Except.error (PyExc.typeError qubitLossArityMsg)) := by
  refine ⟨rfl, ?_, ?_⟩
  · intro hlen hu
    apply transmit_qubit_success_branch
    rw [lossProb_length_zero c hlen]
    exact not_lt.mpr hu
  · intro hloss hlen hu
    have h : u < c.lossProb := by
      rw [lossProb_loss_per_km_one c hloss hlen]; exact hu
    rw [transmit_qubit_loss_branch c w qubit from_node u h,
      mkQubitLossErrorCall_eq]

/-- Witness for c2_loss_probability_behavior: both implications applied
at concrete channels (length 0, and loss_per_km 1 with length 1000). -/
theorem c2_loss_probability_behavior_witness :
    chanLen0.transmit_qubit worldEx qubitEx 0 0 =
      worldEx.callReceiveQubit (chanLen0.resolveToNode 0)
        (chanLen0.apply_noise qubitEx)
    ∧ chanLossy.transmit_qubit worldEx qubitEx 0 (1/2) =
        Except.error (PyExc.typeError qubitLossArityMsg) := by
  constructor
  · exact (c2_loss_probability_behavior chanLen0 worldEx qubitEx 0 0).2.1
      rfl le_rfl
  · exact (c2_loss_probability_behavior chanLossy worldEx qubitEx 0
      (1/2)).2.2 rfl (by norm_num [chanLossy]) (by norm_num)

/-- C3 (code_bug evaluation): on a successful (no-loss) transmission
between two plain QuantumNodes, the qubit is not enqueued into the
receiving node's FIFO buffer: the code calls `to_node.receive_qubit`, an
attribute QuantumNode does not define (its method is spelled
`receive_qbit`), so AttributeError is raised. The second conjunct shows
the method that does exist, receive_qbit, is the FIFO enqueue the claim
describes. -/
theorem c3_delivery_attribute_error :
    chanLen0.transmit_qubit worldEx qubitEx 0 0 =
      Except.error (PyExc.attributeError "QuantumNode" "receive_qubit")
    ∧ QuantumNode.receive_qbit
        { address := "b", quantum_channels := [], qmemory := none
          qmemeory_buffer := [] } qubitEx =
      { address := "b", quantum_channels := [], qmemory := none
        qmemeory_buffer := [qubitEx] } := by
  constructor
  · have h : ¬ (0 : ℝ) < chanLen0.lossProb := by
      rw [chanLen0_lossProb]; norm_num
    rw [transmit_qubit_success_branch chanLen0 worldEx qubitEx 0 0 h]
    rfl
  · rfl

/-- C4 counterexample: a swap whose repeater holds qubits basis 10 and
basis 11 in its own two memory slots passes different qubits (basis 20
and basis 21, the `get_qmemory()` of the in-channels' node_2 endpoints)
to the Bell measurement: the swap does not read the repeater's own
memory slots. -/
theorem c4_counterexample :
    repSt.qmemory = some [some (Qubit.basis 10), some (Qubit.basis 11)]
    ∧ (QuantumRepeater.simple_entanglement_swap repSt swapEnvEx
          fun _ _ => true).measured =
        some (some (Qubit.basis 20), some (Qubit.basis 21))
    ∧ (QuantumRepeater.simple_entanglement_swap repSt swapEnvEx
          fun _ _ => true).measured ≠
        some (some (Qubit.basis 10), some (Qubit.basis 11)) := by
  refine ⟨rfl, ?_, ?_⟩ <;> decide

/-- C4 (amended): when the repeater's qmemory is a non-empty list of
filled slots and it has at least two inbound channels, the swap passes
the qmemory of the node_2 endpoints of its first two inbound channels
(not the repeater's own slots) to the Bell measurement, sends exactly
two entanglement_swap_outcome notifications carrying that one outcome —
to those two node_2 endpoints, each naming the other as peer — and
afterwards the repeater's qmemory is None (cleared). -/
theorem c4_swap_behavior (env : SwapEnv)
    (measure : Option Qubit → Option Qubit → Bool)
    (c0 c1 : QuantumChannel) (rest : List QuantumChannel)
    (mem : List (Option Qubit)) (hne : mem ≠ [])
    (hall : (mem.all fun slot => slot.isSome) = true) :
    QuantumRepeater.simple_entanglement_swap
        { quantum_channels_in := c0 :: c1 :: rest, qmemory := some mem }
        env measure =
      { measured := some (env.nodeMem c0.node_2, env.nodeMem c1.node_2)
        notifications :=
          [(c0.node_2, c1.node_2,
              measure (env.nodeMem c0.node_2) (env.nodeMem c1.node_2)),
            (c1.node_2, c0.node_2,
              measure (env.nodeMem c0.node_2) (env.nodeMem c1.node_2))]
        qmemory := none } := by
  unfold QuantumRepeater.simple_entanglement_swap
  dsimp only
  rw [if_pos ⟨hne, hall⟩]

/-- Witness for c4_swap_behavior at the concrete example repeater. -/
theorem c4_swap_behavior_witness :
    QuantumRepeater.simple_entanglement_swap repSt swapEnvEx
        (fun _ _ => false) =
      { measured := some (some (Qubit.basis 20), some (Qubit.basis 21))
        notifications := [(7, 8, false), (8, 7, false)]
        qmemory := none } := by
  have h := c4_swap_behavior swapEnvEx (fun _ _ => false) chanIn0 chanIn1 []
    [some (Qubit.basis 10), some (Qubit.basis 11)] (by decide) (by decide)
  exact h

/-- C5 counterexample: chanIn2 is a member of quantum_channels_in at
position 2, yet receive_qubit does not store the qubit into memory slot
2 — it takes the diagnostic-print branch and returns the state
unchanged (all three slots still empty). -/
theorem c5_counterexample :
    repSt3.quantum_channels_in.get? 2 = some chanIn2
    ∧ QuantumRepeater.receive_qubit repSt3 qubitEx chanIn2 =
        Except.ok repSt3
    ∧ repSt3.qmemory = some [none, none, none] := by
  refine ⟨rfl, ?_, rfl⟩
  rfl

/-- C5 (amended): receive_qubit stores the qubit into memory slot 0 or 1
when the channel is quantum_channels_in[0] or quantum_channels_in[1]
respectively (given qmemory is a list with at least two cells); any
other channel — member at position 2 or beyond, or non-member — is
treated as unrecognized: no exception, memory unchanged, only a printed
diagnostic. With fewer than two inbound channels the unrecognized-channel
path instead raises IndexError on the subscript of quantum_channels_in. -/
theorem c5_receive_qubit_behavior (qubit : Qubit)
    (channel c0 c1 : QuantumChannel) (rest : List QuantumChannel)
    (mem : List (Option Qubit)) (hlen : 2 ≤ mem.length) :
    (channel = c0 →
      QuantumRepeater.receive_qubit
          { quantum_channels_in := c0 :: c1 :: rest, qmemory := some mem }
          qubit channel =
        Except.ok
          { quantum_channels_in := c0 :: c1 :: rest
            qmemory := some (mem.set 0 (some qubit)) })
    ∧ (channel ≠ c0 → channel = c1 →
      QuantumRepeater.receive_qubit
          { quantum_channels_in := c0 :: c1 :: rest, qmemory := some mem }
          qubit channel =
        Except.ok
          { quantum_channels_in := c0 :: c1 :: rest
            qmemory := some (mem.set 1 (some qubit)) })
    ∧ (channel ≠ c0 → channel ≠ c1 →
      QuantumRepeater.receive_qubit
          { quantum_channels_in := c0 :: c1 :: rest, qmemory := some mem }
          qubit channel =
        Except.ok
          { quantum_channels_in := c0 :: c1 :: rest, qmemory := some mem })
    ∧ (∀ (st2 : RepeaterState) (q2 : Qubit) (ch2 : QuantumChannel),
        st2.quantum_channels_in = [] →
        QuantumRepeater.receive_qubit st2 q2 ch2 =
          Except.error PyExc.indexError)
    ∧ (∀ (st2 : RepeaterState) (q2 : Qubit) (ch2 c : QuantumChannel),
        st2.quantum_channels_in = [c] → ch2 ≠ c →
        QuantumRepeater.receive_qubit st2 q2 ch2 =
          Except.error PyExc.indexError) := by
  have h0 : 0 < mem.length := lt_of_lt_of_le (by norm_num) hlen
  have h1 : 1 < mem.length := lt_of_lt_of_le (by norm_num) hlen
  refine ⟨?_, ?_, ?_, ?_, ?_⟩
  · intro h
    subst h
    unfold QuantumRepeater.receive_qubit RepeaterState.setMemSlot
    simp [h0]
  · intro hne h
    subst h
    unfold QuantumRepeater.receive_qubit RepeaterState.setMemSlot
    simp [hne, h1]
  · intro hne0 hne1
    unfold QuantumRepeater.receive_qubit
    simp [hne0, hne1]
  · intro st2 q2 ch2 h
    unfold QuantumRepeater.receive_qubit
    rw [h]
    rfl
  · intro st2 q2 ch2 c h hne
    unfold QuantumRepeater.receive_qubit
    rw [h]
    simp [hne]

/-- Witness for c5_receive_qubit_behavior: the first-slot store and the
unrecognized-channel no-op, at the concrete example repeater. -/
theorem c5_receive_qubit_behavior_witness :
    QuantumRepeater.receive_qubit repSt2 qubitEx chanIn0 =
      Except.ok
        { quantum_channels_in := [chanIn0, chanIn1]
          qmemory := some [some qubitEx, none] }
    ∧ QuantumRepeater.receive_qubit repSt2 qubitEx chanIn2 =
        Except.ok repSt2 := by
  constructor
  · exact (c5_receive_qubit_behavior qubitEx chanIn0 chanIn0 chanIn1 []
      [none, none] (by decide)).1 rfl
  · exact (c5_receive_qubit_behavior qubitEx chanIn2 chanIn0 chanIn1 []
      [none, none] (by decide)).2.2.1 (by decide) (by decide)

theorem append_hops_all_hops (p : ClassicDataPacket) (l : List Nat) :
    (p.appendHopsAll l).hops = p.hops ++ l := by
  induction l generalizing p with
  | nil => simp [ClassicDataPacket.appendHopsAll]
  | cons h t ih =>
      show (ClassicDataPacket.appendHopsAll (p.append_hop h) t).hops =
        p.hops ++ h :: t
      rw [ih]
      simp [ClassicDataPacket.append_hop]

/-- C6: a freshly constructed packet has hops = [from_address] and
next_hop = to_address; append_hop appends exactly one node (and is the
only hops mutator in the model, whose packet operations are init and
append_hop); hence after N traversals (N append_hop calls) the hops list
has length N+1 and still starts with from_address. -/
theorem c6_hop_monotonicity (data : String) (from_address : Nat)
    (to_address : Nat) (ptype : PacketType) (protocol : String)
    (time : PyTime) (destination_address : Option Nat) (now : ℚ)
    (hop : Nat) (l : List Nat) :
    (ClassicDataPacket.init data from_address to_address ptype protocol
        time destination_address now).hops = [from_address]
    ∧ (ClassicDataPacket.init data from_address to_address ptype protocol
        time destination_address now).next_hop = to_address
    ∧ (∀ p : ClassicDataPacket, (p.append_hop hop).hops = p.hops ++ [hop])
    ∧ ((ClassicDataPacket.init data from_address to_address ptype protocol
        time destination_address now).appendHopsAll l).hops.length =
      l.length + 1
    ∧ ((ClassicDataPacket.init data from_address to_address ptype protocol
        time destination_address now).appendHopsAll l).hops.head? =
      some from_address := by
  refine ⟨rfl, rfl, fun p => rfl, ?_, ?_⟩
  · rw [append_hops_all_hops]
    rfl
  · rw [append_hops_all_hops]
    rfl

/-- C7: constructing a QuantumNode — and hence a QuantumRepeater, whose
constructor runs the QuantumNode one — attached to a network whose
network_type is not QUANTUM_NETWORK raises UnSupportedNetworkError, and
attached to a QUANTUM_NETWORK network succeeds without that error. -/
theorem c7_attach_type_safety (network : Network) (address : String)
    (rp : String) (nm : Nat) (mf : ℚ) :
    (network.network_type ≠ NetworkType.QUANTUM_NETWORK →
      QuantumNode.init network address =
          Except.error PyExc.unSupportedNetwork
      ∧ QuantumRepeater.init network address rp nm mf =
          Except.error PyExc.unSupportedNetwork)
    ∧ (network.network_type = NetworkType.QUANTUM_NETWORK →
      (∃ st, QuantumNode.init network address = Except.ok st)
      ∧ ∃ st, QuantumRepeater.init network address rp nm mf =
          Except.ok st) := by
  constructor
  · intro h
    have h1 : QuantumNode.init network address =
        Except.error PyExc.unSupportedNetwork := by
      unfold QuantumNode.init
      rw [if_pos h]
    refine ⟨h1, ?_⟩
    unfold QuantumRepeater.init
    rw [h1]
  · intro h
    have h1 : QuantumNode.init network address = Except.ok
        { address := address, quantum_channels := [], qmemory := none
          qmemeory_buffer := [] } := by
      unfold QuantumNode.init
      rw [if_neg (fun hc => hc h)]
    refine ⟨⟨_, h1⟩, ?_⟩
    refine ⟨{ base := { address := address, quantum_channels := []
                        qmemory := none, qmemeory_buffer := [] }
              quantum_channels_in := [], quantum_channels_out := []
              repeater_protocol := rp, num_memories := nm
              memory_fidelity := mf }, ?_⟩
    unfold QuantumRepeater.init
    rw [h1]

/-- Witness for c7_attach_type_safety: a classical network rejects the
node, a quantum network accepts it. -/
theorem c7_attach_type_safety_witness :
    QuantumNode.init netClassical "h1" =
      Except.error PyExc.unSupportedNetwork
    ∧ ∃ st, QuantumNode.init netQuantum "h1" = Except.ok st := by
  constructor
  · exact ((c7_attach_type_safety netClassical "h1" "simple_swap" 2
      (95/100)).1 (by decide)).1
  · exact ((c7_attach_type_safety netQuantum "h1" "simple_swap" 2
      (95/100)).2 rfl).1

/-- C8: apply_noise with a noise_model that is none of "depolarizing",
"dephasing", "amplitude_damping" (including "default" and any other
string) returns the qubit unchanged. -/
theorem c8_noise_noop (c : QuantumChannel) (qubit : Qubit)
    (h1 : c.noise_model ≠ "depolarizing")
    (h2 : c.noise_model ≠ "dephasing")
    (h3 : c.noise_model ≠ "amplitude_damping") :
    c.apply_noise qubit = qubit := by
  unfold QuantumChannel.apply_noise
  rw [if_neg h1, if_neg h2, if_neg h3]

/-- Witness for c8_noise_noop at noise_model = "default". -/
theorem c8_noise_noop_witness : chanLen0.apply_noise qubitEx = qubitEx :=
  c8_noise_noop chanLen0 qubitEx (by decide) (by decide) (by decide)

/-- C9 counterexample: for the channel with node_1 = 0 and node_2 = 1,
transmitting with from_node = 2 — neither endpoint — raises no
NotConnectedError; to_node resolves to node_1 and the qubit is directed
at it. -/
theorem c9_counterexample :
    chanLen0.node_1 = 0 ∧ chanLen0.node_2 = 1
    ∧ chanLen0.resolveToNode 2 = 0
    ∧ isNotConnectedResult (chanLen0.transmit_qubit worldEx qubitEx 2 0)
        = false := by
  refine ⟨rfl, rfl, rfl, ?_⟩
  have h : ¬ (0 : ℝ) < chanLen0.lossProb := by
    rw [chanLen0_lossProb]
    norm_num
  rw [transmit_qubit_success_branch chanLen0 worldEx qubitEx 2 0 h]
  rfl

/-- C9 (amended): transmit_qubit never raises NotConnectedError; it
resolves to_node as node_2 when from_node is node_1 and as node_1
otherwise — so for from_node equal to one endpoint, to_node is the other
endpoint, and for from_node that is neither endpoint the qubit is
directed at node_1 instead of an error being raised. -/
theorem c9_resolve_behavior (c : QuantumChannel) (w : QWorld)
    (qubit : Qubit) (from_node : Nat) (u : ℝ) :
    isNotConnectedResult (c.transmit_qubit w qubit from_node u) = false
    ∧ (from_node = c.node_1 → c.resolveToNode from_node = c.node_2)
    ∧ (from_node ≠ c.node_1 → c.resolveToNode from_node = c.node_1) := by
  refine ⟨?_, ?_, ?_⟩
  · unfold QuantumChannel.transmit_qubit
    split
    · rfl
    · show isNotConnectedResult (w.callReceiveQubit
        (c.resolveToNode from_node) (c.apply_noise qubit)) = false
      unfold QWorld.callReceiveQubit
      cases w.kind (c.resolveToNode from_node) <;> rfl
  · intro h
    unfold QuantumChannel.resolveToNode
    rw [if_pos h.symm]
  · intro h
    unfold QuantumChannel.resolveToNode
    rw [if_neg (fun hc => h hc.symm)]

/-- Witness for c9_resolve_behavior: endpoint and non-endpoint senders on
the concrete channel with node_1 = 0, node_2 = 1. -/
theorem c9_resolve_behavior_witness :
    chanLen0.resolveToNode 0 = 1 ∧ chanLen0.resolveToNode 2 = 0 := by
  constructor
  · exact (c9_resolve_behavior chanLen0 worldEx qubitEx 0 0).2.1 rfl
  · exact (c9_resolve_behavior chanLen0 worldEx qubitEx 2 0).2.2
      (by decide)

/-- C10: a packet constructed with the default time argument (time == 0)
stores the uncalled bound method `datetime.now().timestamp` in its time
field — a function object, not a number — so the default-case time is
never a numeric wall-clock timestamp. -/
theorem c10_default_time_is_bound_method (data : String)
    (from_address : Nat) (to_address : Nat) (ptype : PacketType)
    (protocol : String) (destination_address : Option Nat) (now : ℚ) :
    (ClassicDataPacket.init data from_address to_address ptype protocol
        (PyTime.num 0) destination_address now).time =
      PyTime.boundMethodTimestamp now
    ∧ PyTime.isNumeric
        (ClassicDataPacket.init data from_address to_address ptype
          protocol (PyTime.num 0) destination_address now).time =
      false := by
  constructor <;> rfl

end QSim
